import Mathlib

/-!
Shallow embedding of the qr-generator page (src/src/app/page.tsx) and the
scanner component (src/unnamed/part_000, QRScanner.tsx).

The page keeps five pieces of React state (inputData, qrCode, logoPreview,
error, loading) plus the file-input element's value; canvases are modelled
as display lists of drawing operations over ℚ; the external QR encoding
library is modelled as a boolean oracle saying whether `QRCode.toCanvas`
succeeds for a given text (it throws past its capacity); `toDataURL` is a
deterministic rendering of a canvas's contents to a string.
-/

namespace QRGen

/-- One drawing operation performed on a canvas 2d context. -/
inductive DrawOp where
  /-- `ctx.clearRect(x, y, w, h)` -/
  | clearRect (x y w h : ℚ)
  /-- white `roundRect` path of corner radius `r` followed by `fill()` -/
  | fillRoundRect (x y w h r : ℚ)
  /-- `arc(cx, cy, r, 0, 2π)` followed by `closePath(); clip()` -/
  | circleClip (cx cy r : ℚ)
  /-- `drawImage(img, x, y, w, h)` for a decoded source image of intrinsic
  size `srcW × srcH` (the uploaded logo file) -/
  | drawFileImage (srcW srcH x y w h : ℚ)
  /-- the bitmap `QRCode.toCanvas` paints for `text` at the given options -/
  | qrBitmap (text : String) (ecLevel : String) (width : Nat) (margin : Nat)
  /-- `drawImage(img, x, y, w, h)` for an image loaded from a data URL -/
  | drawUrlImage (url : String) (x y w h : ℚ)
deriving Repr, DecidableEq

/-- A canvas: its size and the display list that determines its pixels. -/
structure Canvas where
  width : ℚ
  height : ℚ
  ops : List DrawOp
deriving Repr, DecidableEq

/-- `canvas.toDataURL('image/png')`: a deterministic rendering of the canvas
contents; equal canvases yield equal data URLs. -/
def toDataURL (c : Canvas) : String :=
  "data:image/png;base64," ++ reprStr c.ops

/-- Code points the ECMAScript `String.prototype.trim` strips: WhiteSpace
(TAB VT FF SP NBSP ZWNBSP and the Zs category) and LineTerminator. -/
def jsWhitespace (c : Char) : Bool :=
  c.toNat = 0x09 || c.toNat = 0x0A || c.toNat = 0x0B || c.toNat = 0x0C ||
  c.toNat = 0x0D || c.toNat = 0x20 || c.toNat = 0xA0 || c.toNat = 0x1680 ||
  (0x2000 ≤ c.toNat && c.toNat ≤ 0x200A) ||
  c.toNat = 0x2028 || c.toNat = 0x2029 || c.toNat = 0x202F ||
  c.toNat = 0x205F || c.toNat = 0x3000 || c.toNat = 0xFEFF

/-- JavaScript `s.trim()`. -/
def jsTrim (s : String) : String :=
  String.mk (((s.data.dropWhile jsWhitespace).reverse.dropWhile jsWhitespace).reverse)

/-- The page's React state together with the file-input element's value. -/
structure AppState where
  inputData : String
  qrCode : String
  logoPreview : String
  error : String
  loading : Bool
  fileInputValue : String
deriving Repr, DecidableEq

/-- The state on first render: every useState starts at '' or false, and the
file input is empty. -/
def AppState.initial : AppState :=
  { inputData := "", qrCode := "", logoPreview := "", error := "",
    loading := false, fileInputValue := "" }

/-- A file picked in the upload input: its byte size and the intrinsic pixel
size of the image it decodes to. -/
structure UploadFile where
  size : Nat
  imgWidth : ℚ
  imgHeight : ℚ
deriving Repr, DecidableEq

/-- `5 * 1024 * 1024` from the size guard in handleLogoUpload. -/
def maxLogoBytes : Nat := 5 * 1024 * 1024

/-- The 100×100 logo canvas handleLogoUpload builds for an accepted image of
intrinsic size `srcW × srcH`: white rounded-rectangle fill, circular clip,
then the scaled image drawn centered, exactly as the source orders them. -/
def logoCanvas (srcW srcH : ℚ) : Canvas :=
  let maxSize : ℚ := 100
  let borderWidth : ℚ := 10
  let scale := min ((maxSize - 2 * borderWidth) / srcW)
                   ((maxSize - 2 * borderWidth) / srcH)
  let scaledWidth := srcW * scale
  let scaledHeight := srcH * scale
  { width := maxSize, height := maxSize,
    ops := [DrawOp.fillRoundRect 0 0 maxSize maxSize 20,
            DrawOp.circleClip (maxSize / 2) (maxSize / 2)
              ((maxSize - 2 * borderWidth) / 2),
            DrawOp.drawFileImage srcW srcH
              ((maxSize - scaledWidth) / 2) ((maxSize - scaledHeight) / 2)
              scaledWidth scaledHeight] }

/-- handleLogoUpload: `none` models a change event with no file. Returns the
new state and the drawing operations performed while processing the file. -/
def handleLogoUpload (s : AppState) (file : Option UploadFile) :
    AppState × List DrawOp :=
  match file with
  | none => (s, [])
  | some f =>
    if f.size > maxLogoBytes then
      ({ s with error := "Logo must be less than 5MB" }, [])
    else
      ({ s with logoPreview := toDataURL (logoCanvas f.imgWidth f.imgHeight) },
       (logoCanvas f.imgWidth f.imgHeight).ops)

/-- An observable event of one embedLogoInQRCode run. -/
inductive Ev where
  | setLoading (b : Bool)
  | draw (op : DrawOp)
  /-- the `QRCode.toCanvas` invocation itself -/
  | encodeCall (text : String)
deriving Repr, DecidableEq

/-- The 400×400 working canvas after a successful run for `text` with the
given logoPreview: cleared, QR bitmap painted at level H width 400 margin 1,
then (when a logo is set) the logo drawn at ((400-100)/2, (400-100)/2). -/
def qrCanvas (text logoPreview : String) : Canvas :=
  let base := [DrawOp.clearRect 0 0 400 400, DrawOp.qrBitmap text "H" 400 1]
  { width := 400, height := 400,
    ops := if logoPreview = "" then base
           else base ++ [DrawOp.drawUrlImage logoPreview
             ((400 - 100) / 2) ((400 - 100) / 2) 100 100] }

/-- embedLogoInQRCode. `enc text = true` models `QRCode.toCanvas`
succeeding on `text` (within the library's capacity); `false` models it
throwing. Returns the new state and the run's event trace, in source order:
validation happens before anything else; on the logo path the draw of the
logo fires from the image-load callback after the finally clause has already
cleared the loading flag. -/
def embedLogoInQRCode (enc : String → Bool) (s : AppState) :
    AppState × List Ev :=
  if jsTrim s.inputData = "" then
    ({ s with error := "Please enter data" }, [])
  else if enc s.inputData then
    if s.logoPreview = "" then
      ({ s with
          loading := false, error := "",
          qrCode := toDataURL (qrCanvas s.inputData "") },
       [Ev.setLoading true, Ev.draw (DrawOp.clearRect 0 0 400 400),
        Ev.encodeCall s.inputData,
        Ev.draw (DrawOp.qrBitmap s.inputData "H" 400 1),
        Ev.setLoading false])
    else
      ({ s with
          loading := false, error := "",
          qrCode := toDataURL (qrCanvas s.inputData s.logoPreview) },
       [Ev.setLoading true, Ev.draw (DrawOp.clearRect 0 0 400 400),
        Ev.encodeCall s.inputData,
        Ev.draw (DrawOp.qrBitmap s.inputData "H" 400 1),
        Ev.setLoading false,
        Ev.draw (DrawOp.drawUrlImage s.logoPreview
          ((400 - 100) / 2) ((400 - 100) / 2) 100 100)])
  else
    ({ s with loading := false, error := "Failed to generate QR code" },
     [Ev.setLoading true, Ev.draw (DrawOp.clearRect 0 0 400 400),
      Ev.encodeCall s.inputData, Ev.setLoading false])

/-- removeLogo: clears the preview and resets the file input's value. -/
def removeLogo (s : AppState) : AppState :=
  { s with logoPreview := "", fileInputValue := "" }

/-- The synthetic anchor downloadQRCode clicks. -/
structure DownloadFile where
  href : String
  filename : String
deriving Repr, DecidableEq

/-- downloadQRCode: `nowMs` is `Date.now()`. Returns the new state and the
file exported, if any. -/
def downloadQRCode (s : AppState) (nowMs : Nat) :
    AppState × Option DownloadFile :=
  if s.qrCode = "" then
    ({ s with error := "No QR code to download" }, none)
  else
    (s, some { href := s.qrCode,
               filename := "qrcode-" ++ toString nowMs ++ ".png" })

/-- A frame outcome the html5-qrcode widget reports to its callbacks. -/
inductive Frame where
  | decoded (text : String)
  | failed (err : String)
deriving Repr, DecidableEq

/-- What the QRScanner component emits while scanning. -/
inductive ScanOut where
  /-- the caller-supplied `onResult` invoked with the decoded text -/
  | callback (text : String)
  /-- `console.error` on a per-frame decode error -/
  | logged (err : String)
deriving Repr, DecidableEq

/-- Modelled from the spec: the html5-qrcode widget (an external library) is
out of scope; per the spec it samples frames and reports each to the
registered callbacks while active, and after `clear()` it emits no further
frames and the camera is released. The two callbacks are QRScanner.tsx's:
on a decoded frame, invoke `onResult` with the text and then `clear()` the
scanner; on a failed frame, log the error and keep scanning. Returns the
emitted outputs and whether the widget is still active afterwards. -/
def runScanner : List Frame → List ScanOut × Bool
  | [] => ([], true)
  | Frame.decoded t :: _ => ([ScanOut.callback t], false)
  | Frame.failed e :: rest =>
    let r := runScanner rest
    (ScanOut.logged e :: r.1, r.2)

/-- The useEffect cleanup of QRScanner.tsx: on unmount it calls `clear()`
on the widget whatever state it is in, releasing the camera. -/
def unmountScanner (_active : Bool) : Bool := false

/-! ## Helper lemmas -/

/-- A data URL produced by `toDataURL` is never the empty string. -/
theorem toDataURL_ne_empty (c : Canvas) : toDataURL c ≠ "" := by
  intro hc
  have hlen := congrArg String.length hc
  rw [toDataURL, String.length_append] at hlen
  simp at hlen
  exact absurd hlen.1 (by decide)

/-- A string all of whose characters are JavaScript whitespace trims to
the empty string. -/
theorem jsTrim_of_all (s : String) (h : ∀ c ∈ s.data, jsWhitespace c) :
    jsTrim s = "" := by
  unfold jsTrim
  rw [List.dropWhile_eq_nil_iff.mpr h]
  rfl

/-- Failed frames pass through the scanner loop as logged errors. -/
theorem runScanner_failed_append (errs : List String) (k : List Frame) :
    runScanner (errs.map Frame.failed ++ k) =
      (errs.map ScanOut.logged ++ (runScanner k).1, (runScanner k).2) := by
  induction errs with
  | nil => simp
  | cons e es ih => simp [runScanner, ih]

/-! ## Claim theorems -/

/-- Claim C1 as stated is false: the one-space input has length 1 > 0 and is
within any capacity, yet generation leaves qrCode empty and surfaces the
validation error instead of clearing the prior one. -/
theorem generation_length_positive_counterexample :
    (" " : String).length > 0 ∧
    (embedLogoInQRCode (fun _ => true)
      { AppState.initial with inputData := " ", error := "prior" }).1.qrCode = "" ∧
    (embedLogoInQRCode (fun _ => true)
      { AppState.initial with inputData := " ", error := "prior" }).1.error =
      "Please enter data" := by
  refine ⟨by decide, by decide, by decide⟩

/-- Claim C1 (amended): for every InputText whose trimmed form is non-empty
and which is within the encoder's capacity, generation sets qrCode to a
non-empty data URL and clears any previously displayed error. -/
theorem generation_trimmed_input_produces_artifact (enc : String → Bool)
    (s : AppState) (hval : jsTrim s.inputData ≠ "")
    (hcap : enc s.inputData = true) :
    (embedLogoInQRCode enc s).1.qrCode ≠ "" ∧
    (embedLogoInQRCode enc s).1.error = "" := by
  by_cases hl : s.logoPreview = "" <;>
    simp [embedLogoInQRCode, hval, hcap, hl, toDataURL_ne_empty]

/-- Witness for C1's amended theorem at InputText "hello". -/
theorem generation_trimmed_input_produces_artifact_witness :
    jsTrim "hello" ≠ "" ∧
    ((embedLogoInQRCode (fun _ => true)
        { AppState.initial with inputData := "hello", error := "prior" }).1.qrCode ≠ "" ∧
     (embedLogoInQRCode (fun _ => true)
        { AppState.initial with inputData := "hello", error := "prior" }).1.error = "") :=
  ⟨by decide,
   generation_trimmed_input_produces_artifact (fun _ => true) _ (by decide) rfl⟩

/-- Claim C2: generation with empty or whitespace-only InputText performs no
event at all — in particular it never invokes the encoder and draws nothing
on the working canvas — and surfaces the validation error. -/
theorem generation_whitespace_only_rejected (enc : String → Bool)
    (s : AppState) (h : ∀ c ∈ s.inputData.data, jsWhitespace c) :
    (embedLogoInQRCode enc s).2 = [] ∧
    (∀ t, Ev.encodeCall t ∉ (embedLogoInQRCode enc s).2) ∧
    (∀ op, Ev.draw op ∉ (embedLogoInQRCode enc s).2) ∧
    (embedLogoInQRCode enc s).1.error = "Please enter data" := by
  have ht : jsTrim s.inputData = "" := jsTrim_of_all s.inputData h
  simp [embedLogoInQRCode, ht]

/-- Witness for C2 at the whitespace-only InputText of a space and a tab. -/
theorem generation_whitespace_only_rejected_witness :
    (∀ c ∈ (" \t" : String).data, jsWhitespace c) ∧
    ((embedLogoInQRCode (fun _ => true)
        { AppState.initial with inputData := " \t" }).2 = [] ∧
     (∀ t, Ev.encodeCall t ∉ (embedLogoInQRCode (fun _ => true)
        { AppState.initial with inputData := " \t" }).2) ∧
     (∀ op, Ev.draw op ∉ (embedLogoInQRCode (fun _ => true)
        { AppState.initial with inputData := " \t" }).2) ∧
     (embedLogoInQRCode (fun _ => true)
        { AppState.initial with inputData := " \t" }).1.error = "Please enter data") :=
  ⟨by decide, generation_whitespace_only_rejected (fun _ => true) _ (by decide)⟩

/-- Claim C3: for an accepted source image of size w×h the preprocessor
builds a 100×100 canvas by filling white clipped to a rounded rectangle of
corner radius 20, computing the uniform scale min(80/w, 80/h), clipping to
the circle of radius 40 centered at (50,50), and drawing the scaled image
centered; the upload handler stores exactly its export as logoPreview. -/
theorem logo_preprocessor_geometry (w h : ℚ) (hw : 0 < w) (hh : 0 < h)
    (s : AppState) (f : UploadFile) (hfw : f.imgWidth = w)
    (hfh : f.imgHeight = h) (hsize : f.size ≤ maxLogoBytes) :
    (logoCanvas w h).width = 100 ∧ (logoCanvas w h).height = 100 ∧
    (logoCanvas w h).ops =
      [DrawOp.fillRoundRect 0 0 100 100 20,
       DrawOp.circleClip 50 50 40,
       DrawOp.drawFileImage w h
         ((100 - w * min (80 / w) (80 / h)) / 2)
         ((100 - h * min (80 / w) (80 / h)) / 2)
         (w * min (80 / w) (80 / h)) (h * min (80 / w) (80 / h))] ∧
    (handleLogoUpload s (some f)).1.logoPreview = toDataURL (logoCanvas w h) ∧
    (handleLogoUpload s (some f)).2 = (logoCanvas w h).ops := by
  have hns : ¬ f.size > maxLogoBytes := by omega
  subst hfw hfh
  refine ⟨rfl, rfl, ?_, ?_, ?_⟩
  · norm_num [logoCanvas]
  · simp [handleLogoUpload, hns]
  · simp [handleLogoUpload, hns]

/-- Witness for C3 at a 200×100 source image of 1000 bytes. -/
theorem logo_preprocessor_geometry_witness :
    (0 : ℚ) < 200 ∧ (0 : ℚ) < 100 ∧
    (1000 : Nat) ≤ maxLogoBytes ∧
    ((logoCanvas 200 100).width = 100 ∧ (logoCanvas 200 100).height = 100 ∧
     (logoCanvas 200 100).ops =
       [DrawOp.fillRoundRect 0 0 100 100 20,
        DrawOp.circleClip 50 50 40,
        DrawOp.drawFileImage 200 100
          ((100 - 200 * min (80 / 200) (80 / 100)) / 2)
          ((100 - 100 * min (80 / 200) (80 / 100)) / 2)
          (200 * min (80 / 200) (80 / 100)) (100 * min (80 / 200) (80 / 100))] ∧
     (handleLogoUpload AppState.initial
        (some { size := 1000, imgWidth := 200, imgHeight := 100 })).1.logoPreview =
       toDataURL (logoCanvas 200 100) ∧
     (handleLogoUpload AppState.initial
        (some { size := 1000, imgWidth := 200, imgHeight := 100 })).2 =
       (logoCanvas 200 100).ops) :=
  ⟨by norm_num, by norm_num, by norm_num [maxLogoBytes],
   logo_preprocessor_geometry 200 100 (by norm_num) (by norm_num)
     AppState.initial { size := 1000, imgWidth := 200, imgHeight := 100 }
     rfl rfl (by norm_num [maxLogoBytes])⟩

/-- Claim C4: an upload of a file over 5,242,880 bytes surfaces the size
error and changes nothing else: logoPreview, qrCode, inputData, loading and
the file input are untouched and no drawing is performed. -/
theorem oversized_upload_state_unchanged (s : AppState) (f : UploadFile)
    (hsize : f.size > 5242880) :
    (handleLogoUpload s (some f)).1.error = "Logo must be less than 5MB" ∧
    (handleLogoUpload s (some f)).1.logoPreview = s.logoPreview ∧
    (handleLogoUpload s (some f)).1.qrCode = s.qrCode ∧
    (handleLogoUpload s (some f)).1.inputData = s.inputData ∧
    (handleLogoUpload s (some f)).1.loading = s.loading ∧
    (handleLogoUpload s (some f)).1.fileInputValue = s.fileInputValue ∧
    (handleLogoUpload s (some f)).2 = [] := by
  have hgt : f.size > maxLogoBytes := by
    simp only [maxLogoBytes]; omega
  simp [handleLogoUpload, hgt]

/-- Witness for C4 at a file one byte over the ceiling. -/
theorem oversized_upload_state_unchanged_witness :
    (5242881 : Nat) > 5242880 ∧
    ((handleLogoUpload AppState.initial
        (some { size := 5242881, imgWidth := 10, imgHeight := 10 })).1.error =
       "Logo must be less than 5MB" ∧
     (handleLogoUpload AppState.initial
        (some { size := 5242881, imgWidth := 10, imgHeight := 10 })).1.logoPreview =
       AppState.initial.logoPreview ∧
     (handleLogoUpload AppState.initial
        (some { size := 5242881, imgWidth := 10, imgHeight := 10 })).1.qrCode =
       AppState.initial.qrCode ∧
     (handleLogoUpload AppState.initial
        (some { size := 5242881, imgWidth := 10, imgHeight := 10 })).1.inputData =
       AppState.initial.inputData ∧
     (handleLogoUpload AppState.initial
        (some { size := 5242881, imgWidth := 10, imgHeight := 10 })).1.loading =
       AppState.initial.loading ∧
     (handleLogoUpload AppState.initial
        (some { size := 5242881, imgWidth := 10, imgHeight := 10 })).1.fileInputValue =
       AppState.initial.fileInputValue ∧
     (handleLogoUpload AppState.initial
        (some { size := 5242881, imgWidth := 10, imgHeight := 10 })).2 = []) :=
  ⟨by norm_num,
   oversized_upload_state_unchanged AppState.initial
     { size := 5242881, imgWidth := 10, imgHeight := 10 } (by norm_num)⟩

/-- Claim C5: once validation passes, the loading flag is set at the start
of the run and the run always ends with it cleared; when the encoder throws
the failure is caught, the generic error is surfaced, and qrCode is left as
it was (in particular unset stays unset). -/
theorem generation_failure_and_loading (enc : String → Bool) (s : AppState)
    (hval : jsTrim s.inputData ≠ "") :
    (embedLogoInQRCode enc s).1.loading = false ∧
    (embedLogoInQRCode enc s).2.head? = some (Ev.setLoading true) ∧
    Ev.setLoading false ∈ (embedLogoInQRCode enc s).2 ∧
    (enc s.inputData = false →
      (embedLogoInQRCode enc s).2 =
        [Ev.setLoading true, Ev.draw (DrawOp.clearRect 0 0 400 400),
         Ev.encodeCall s.inputData, Ev.setLoading false] ∧
      (embedLogoInQRCode enc s).1.error = "Failed to generate QR code" ∧
      (embedLogoInQRCode enc s).1.qrCode = s.qrCode) := by
  cases he : enc s.inputData <;> by_cases hl : s.logoPreview = "" <;>
    simp [embedLogoInQRCode, hval, he, hl]

/-- Witness for C5 at InputText "x" with a throwing encoder. -/
theorem generation_failure_and_loading_witness :
    jsTrim "x" ≠ "" ∧
    ((embedLogoInQRCode (fun _ => false)
        { AppState.initial with inputData := "x" }).1.loading = false ∧
     (embedLogoInQRCode (fun _ => false)
        { AppState.initial with inputData := "x" }).2.head? =
       some (Ev.setLoading true) ∧
     Ev.setLoading false ∈ (embedLogoInQRCode (fun _ => false)
        { AppState.initial with inputData := "x" }).2 ∧
     ((fun _ => false : String → Bool) "x" = false →
       (embedLogoInQRCode (fun _ => false)
          { AppState.initial with inputData := "x" }).2 =
         [Ev.setLoading true, Ev.draw (DrawOp.clearRect 0 0 400 400),
          Ev.encodeCall "x", Ev.setLoading false] ∧
       (embedLogoInQRCode (fun _ => false)
          { AppState.initial with inputData := "x" }).1.error =
         "Failed to generate QR code" ∧
       (embedLogoInQRCode (fun _ => false)
          { AppState.initial with inputData := "x" }).1.qrCode =
         AppState.initial.qrCode)) :=
  ⟨by decide, generation_failure_and_loading (fun _ => false) _ (by decide)⟩

/-- Claim C6: a generation run never changes logoPreview, the file input or
inputData, and each run that passes validation clears the working canvas and
invokes the encoder afresh. -/
theorem generation_preserves_logo_and_recomputes (enc : String → Bool)
    (s : AppState) (hval : jsTrim s.inputData ≠ "") :
    (embedLogoInQRCode enc s).1.logoPreview = s.logoPreview ∧
    (embedLogoInQRCode enc s).1.fileInputValue = s.fileInputValue ∧
    (embedLogoInQRCode enc s).1.inputData = s.inputData ∧
    Ev.draw (DrawOp.clearRect 0 0 400 400) ∈ (embedLogoInQRCode enc s).2 ∧
    Ev.encodeCall s.inputData ∈ (embedLogoInQRCode enc s).2 := by
  cases he : enc s.inputData <;> by_cases hl : s.logoPreview = "" <;>
    simp [embedLogoInQRCode, hval, he, hl]

/-- Witness for C6 at InputText "x" with a logo set. -/
theorem generation_preserves_logo_and_recomputes_witness :
    jsTrim "x" ≠ "" ∧
    ((embedLogoInQRCode (fun _ => true)
        { AppState.initial with inputData := "x", logoPreview := "logo" }).1.logoPreview =
       "logo" ∧
     (embedLogoInQRCode (fun _ => true)
        { AppState.initial with inputData := "x", logoPreview := "logo" }).1.fileInputValue =
       "" ∧
     (embedLogoInQRCode (fun _ => true)
        { AppState.initial with inputData := "x", logoPreview := "logo" }).1.inputData =
       "x" ∧
     Ev.draw (DrawOp.clearRect 0 0 400 400) ∈ (embedLogoInQRCode (fun _ => true)
        { AppState.initial with inputData := "x", logoPreview := "logo" }).2 ∧
     Ev.encodeCall "x" ∈ (embedLogoInQRCode (fun _ => true)
        { AppState.initial with inputData := "x", logoPreview := "logo" }).2) :=
  ⟨by decide, generation_preserves_logo_and_recomputes (fun _ => true) _ (by decide)⟩

/-- Claim C7: download with qrCode unset surfaces "No QR code to download"
and exports nothing; otherwise it leaves the state untouched and exports the
artifact under the name qrcode-(epoch milliseconds).png. -/
theorem download_semantics (s : AppState) (nowMs : Nat) :
    (s.qrCode = "" →
      (downloadQRCode s nowMs).1.error = "No QR code to download" ∧
      (downloadQRCode s nowMs).2 = none) ∧
    (s.qrCode ≠ "" →
      (downloadQRCode s nowMs).1 = s ∧
      (downloadQRCode s nowMs).2 =
        some { href := s.qrCode,
               filename := "qrcode-" ++ toString nowMs ++ ".png" }) := by
  by_cases hq : s.qrCode = "" <;> simp [downloadQRCode, hq]

/-- Claim C8: the scanner logs every failed frame and keeps scanning, and on
the first decoded frame it emits exactly one callback with the decoded text,
is torn down, and emits nothing for any later frame; the unmount cleanup
deactivates it. -/
theorem scanner_single_shot (errs : List String) (t : String)
    (rest : List Frame) :
    runScanner (errs.map Frame.failed ++ Frame.decoded t :: rest) =
      (errs.map ScanOut.logged ++ [ScanOut.callback t], false) ∧
    runScanner (errs.map Frame.failed) = (errs.map ScanOut.logged, true) ∧
    unmountScanner true = false := by
  refine ⟨?_, ?_, rfl⟩
  · rw [runScanner_failed_append]
    simp [runScanner]
  · have hk := runScanner_failed_append errs []
    simpa [runScanner] using hk

/-- Claim C9: removing the logo resets logoPreview to empty, and a
subsequent successful generation for any InputText draws no overlay and
yields a qrCode identical to the one generated from a state where no logo
was ever uploaded. -/
theorem remove_logo_then_generate_identical (enc : String → Bool)
    (s : AppState) (t : String) (hval : jsTrim t ≠ "") (hcap : enc t = true) :
    (removeLogo s).logoPreview = "" ∧
    (embedLogoInQRCode enc { removeLogo s with inputData := t }).1.qrCode =
      (embedLogoInQRCode enc { AppState.initial with inputData := t }).1.qrCode ∧
    (∀ u x y pw ph, Ev.draw (DrawOp.drawUrlImage u x y pw ph) ∉
      (embedLogoInQRCode enc { removeLogo s with inputData := t }).2) := by
  refine ⟨rfl, ?_, ?_⟩ <;>
    simp [embedLogoInQRCode, removeLogo, AppState.initial, hval, hcap]

/-- Witness for C9 at InputText "hi" after removing a previously set logo. -/
theorem remove_logo_then_generate_identical_witness :
    jsTrim "hi" ≠ "" ∧
    ((removeLogo { AppState.initial with logoPreview := "logo" }).logoPreview = "" ∧
     (embedLogoInQRCode (fun _ => true)
        { removeLogo { AppState.initial with logoPreview := "logo" } with
            inputData := "hi" }).1.qrCode =
       (embedLogoInQRCode (fun _ => true)
          { AppState.initial with inputData := "hi" }).1.qrCode ∧
     (∀ u x y pw ph, Ev.draw (DrawOp.drawUrlImage u x y pw ph) ∉
       (embedLogoInQRCode (fun _ => true)
          { removeLogo { AppState.initial with logoPreview := "logo" } with
              inputData := "hi" }).2)) :=
  ⟨by decide,
   remove_logo_then_generate_identical (fun _ => true)
     { AppState.initial with logoPreview := "logo" } "hi" (by decide) rfl⟩

/-- Claim C10: removeLogo changes only logoPreview and the file input's
value; qrCode, error, inputData and loading are untouched, so a previously
generated artifact stays displayed and downloadable. -/
theorem remove_logo_frame_effect (s : AppState) :
    (removeLogo s).qrCode = s.qrCode ∧
    (removeLogo s).error = s.error ∧
    (removeLogo s).inputData = s.inputData ∧
    (removeLogo s).loading = s.loading ∧
    (removeLogo s).logoPreview = "" ∧
    (removeLogo s).fileInputValue = "" :=
  ⟨rfl, rfl, rfl, rfl, rfl, rfl⟩

end QRGen
